import Mathlib

/-!
Verification of the connection/session manager of the Stratosphere mobile
client (`src/services/ApiService.ts` and its consuming connection context).
Each definition is a shallow embedding of the corresponding TypeScript
function; network responses are supplied as explicit scripts so that the
control flow of the source becomes a pure function of those scripts.
-/

namespace StratoApi

/-- Status of one HTTP attempt as observed by the axios response
interceptor: a 2xx response, a 401, or any other error. -/
inductive HttpStatus where
  | ok
  | unauthorized
  | err
  deriving DecidableEq, Repr

/-- Embeds the response interceptor of `setupInterceptors`
(`ApiService.ts` lines 134-145).  On a 401 the interceptor awaits
`createSession()` and then re-issues the original request through the same
axios client, so the re-issued request passes through this same
interceptor again; there is no retry flag limiting the recursion.
`createFails i` tells whether the `createSession()` triggered after the
i-th 401 throws (in which case its error rejects the call); `script`
lists the server's status for each successive attempt of the original
request.  Returns the call's outcome (`none` when the script is exhausted
while the interceptor is still retrying) together with the number of HTTP
attempts of the original request that were made. -/
def interceptedCall (createFails : Nat → Bool) : Nat → List HttpStatus → Option (Except Unit Unit) × Nat
  | _, [] => (none, 0)
  | _, .ok :: _ => (some (.ok ()), 1)
  | _, .err :: _ => (some (.error ()), 1)
  | i, .unauthorized :: rest =>
      if createFails i then (some (.error ()), 1)
      else
        let r := interceptedCall createFails (i + 1) rest
        (r.1, r.2 + 1)

/-- JavaScript `a || b` on numbers with `b` a non-zero default:
`0` is falsy, so `0 || b = b` and any other value is kept.  Used for
`this.config.retryAttempts || 3` in `makeRequest`. -/
def jsOrNat (a b : Nat) : Nat :=
  if a = 0 then b else a

/-- Embeds `retryRequest` (`ApiService.ts` lines 568-581): invoke the
request function; on a rejection, if more than one attempt remains, delay
and recurse with `attempts - 1`, otherwise rethrow.  `script i` tells
whether the i-th invocation (0-based) of the request function succeeds;
`i` is the index of the next invocation.  Returns whether the call
ultimately succeeded and how many times the request function was
invoked. -/
def retryRequest (script : Nat → Bool) (i : Nat) : Nat → Bool × Nat
  | 0 => if script i then (true, 1) else (false, 1)
  | 1 => if script i then (true, 1) else (false, 1)
  | n + 2 =>
      if script i then (true, 1)
      else
        let r := retryRequest script (i + 1) (n + 1)
        (r.1, r.2 + 1)

/-- Embeds the connected branch of `makeRequest`
(`ApiService.ts` lines 560-565): the request function is run through
`retryRequest` with `config.retryAttempts || 3` attempts. -/
def makeRequestConnected (script : Nat → Bool) (retryAttempts : Nat) : Bool × Nat :=
  retryRequest script 0 (jsOrNat retryAttempts 3)

/-- State relevant to the offline request queue: the `isConnected` flag and
the `retryQueue` list of `ApiService`, with queued request functions
identified by an id. -/
structure QueueState where
  isConnected : Bool
  retryQueue : List Nat
  deriving DecidableEq, Repr

/-- Embeds the dispatch of `makeRequest` (`ApiService.ts` lines 545-558):
while not connected the request function is appended to `retryQueue` and
the caller's promise stays pending (`none`); while connected the request
is executed now (`some id`). -/
def makeRequest (s : QueueState) (r : Nat) : QueueState × Option Nat :=
  if s.isConnected then (s, some r)
  else ({ s with retryQueue := s.retryQueue ++ [r] }, none)

/-- A sequence of domain operations issued against state `s`, each queued
or executed by `makeRequest` in submission order. -/
def enqueueAll (s : QueueState) (rs : List Nat) : QueueState :=
  rs.foldl (fun s r => (makeRequest s r).1) s

/-- Embeds `processRetryQueue` (`ApiService.ts` lines 587-598): the queue
is snapshotted, the field is reset to `[]`, and every snapshotted entry is
invoked in order, each in its own try/catch.  `fails r` tells whether
entry `r`'s invocation rejects; the returned list records, in invocation
order, each entry together with whether it succeeded. -/
def processRetryQueue (fails : Nat → Bool) (s : QueueState) :
    QueueState × List (Nat × Bool) :=
  ({ s with retryQueue := [] }, s.retryQueue.map (fun r => (r, !fails r)))

/-- Embeds the success path of `connect` (`ApiService.ts` lines 164-167):
`isConnected` is set, listeners are notified, and `processRetryQueue`
drains the queue. -/
def connectDrain (fails : Nat → Bool) (s : QueueState) :
    QueueState × List (Nat × Bool) :=
  processRetryQueue fails { s with isConnected := true }

/-- Helper: queueing while disconnected appends in submission order. -/
theorem enqueueAll_disconnected (rs : List Nat) : ∀ q : List Nat,
    enqueueAll ⟨false, q⟩ rs = ⟨false, q ++ rs⟩ := by
  induction rs with
  | nil => intro q; simp [enqueueAll]
  | cons r rest ih =>
      intro q
      have := ih (q ++ [r])
      simp [enqueueAll, makeRequest] at this ⊢
      simpa using this

/-- Claim C3: operations issued while disconnected are appended to a FIFO
queue with the caller's promise left pending; on the transition to
Connected exactly the snapshotted entries are invoked in submission
order, each invoked regardless of which entries fail; and entries
enqueued after the snapshot sit in the queue awaiting the next
transition. -/
theorem offline_queue_fifo (rs extra : List Nat) (r : Nat) (fails : Nat → Bool) :
    enqueueAll ⟨false, []⟩ rs = ⟨false, rs⟩ ∧
    (makeRequest (enqueueAll ⟨false, []⟩ rs) r).2 = none ∧
    (connectDrain fails (enqueueAll ⟨false, []⟩ rs)).2
      = rs.map (fun r => (r, !fails r)) ∧
    (connectDrain fails (enqueueAll ⟨false, []⟩ rs)).1.retryQueue = [] ∧
    (enqueueAll ⟨false, (connectDrain fails (enqueueAll ⟨false, []⟩ rs)).1.retryQueue⟩
        extra).retryQueue = extra := by
  have h := enqueueAll_disconnected rs []
  simp only [List.nil_append] at h
  refine ⟨h, ?_, ?_, ?_, ?_⟩
  · rw [h]; simp [makeRequest]
  · rw [h]; simp [connectDrain, processRetryQueue]
  · rw [h]; simp [connectDrain, processRetryQueue]
  · rw [h]
    simp only [connectDrain, processRetryQueue]
    have h2 := enqueueAll_disconnected extra []
    simp only [List.nil_append] at h2
    simp [h2]

/-- Helper: against a server that answers 401 to every attempt (and with
every triggered `createSession()` succeeding), the interceptor keeps
retrying: after `n` scripted 401s it has made `n` attempts and is still
retrying. -/
theorem interceptedCall_replicate_unauthorized (n : Nat) : ∀ i,
    interceptedCall (fun _ => false) i (List.replicate n .unauthorized) = (none, n) := by
  induction n with
  | zero => intro i; rfl
  | succ m ih =>
      intro i
      simp [List.replicate, interceptedCall, ih (i + 1)]

/-- Claim C1: the spec says a 401 triggers session re-creation and exactly
one retry, a second 401 being terminal, so at most two HTTP attempts are
ever made.  The code re-issues the request through the same axios client,
so the retried request passes through the same 401 interceptor again with
no retry flag: with session creation always succeeding, the script
401, 401, 200 yields a third attempt and overall success (the claim says
the second 401 must already be a terminal failure after two attempts),
and a server that always answers 401 causes unboundedly many attempts. -/
theorem interceptor_retries_without_bound :
    interceptedCall (fun _ => false) 0 [.unauthorized, .unauthorized, .ok]
      = (some (.ok ()), 3) ∧
    ∀ n, interceptedCall (fun _ => false) 0 (List.replicate n .unauthorized) = (none, n) := by
  exact ⟨rfl, fun n => interceptedCall_replicate_unauthorized n 0⟩

/-- Helper: when every invocation of the request function fails,
`retryRequest` invokes it `max attempts 1` times and rethrows. -/
theorem retryRequest_all_fail (script : Nat → Bool) (h : ∀ i, script i = false) :
    ∀ a i, retryRequest script i a = (false, max a 1) := by
  intro a
  induction a with
  | zero => intro i; simp [retryRequest, h i]
  | succ n ih =>
      intro i
      match n with
      | 0 => simp [retryRequest, h i]
      | m + 1 =>
          have := ih (i + 1)
          simp [retryRequest, h i, this]

/-- Claim C2 counterexample: with the default `retryAttempts = 3` and a
request function that fails on every invocation, the connected branch of
`makeRequest` invokes the request function three times, not once as the
claim states. -/
theorem makeRequest_invokes_thrice :
    (makeRequestConnected (fun _ => false) 3).2 = 3 ∧
    (makeRequestConnected (fun _ => false) 3).2 ≠ 1 := by
  constructor <;> decide

/-- Claim C2 (amended): when the client is connected, each domain operation
wrapper runs its request function through `retryRequest` with
`config.retryAttempts || 3` attempts: a call whose first invocation
succeeds invokes the request function exactly once, while a call whose
every invocation fails invokes it exactly `retryAttempts || 3` times
(default 3) before the failure propagates — an internal retry layer in
addition to the transport's 401 handling. -/
theorem makeRequest_retry_profile (script : Nat → Bool) (ra : Nat) :
    (script 0 = true → makeRequestConnected script ra = (true, 1)) ∧
    ((∀ i, script i = false) →
      makeRequestConnected script ra = (false, jsOrNat ra 3)) := by
  constructor
  · intro h0
    cases hj : jsOrNat ra 3 with
    | zero => simp [makeRequestConnected, hj, retryRequest, h0]
    | succ n =>
        cases n <;> simp [makeRequestConnected, hj, retryRequest, h0]
  · intro h
    have hmax : max (jsOrNat ra 3) 1 = jsOrNat ra 3 := by
      simp [jsOrNat]; split <;> omega
    simp [makeRequestConnected, retryRequest_all_fail script h, hmax]

/-- Witness for C2's amended theorem at concrete scripts. -/
theorem makeRequest_retry_profile_witness :
    makeRequestConnected (fun _ => true) 3 = (true, 1) ∧
    makeRequestConnected (fun _ => false) 3 = (false, jsOrNat 3 3) :=
  ⟨(makeRequest_retry_profile (fun _ => true) 3).1 rfl,
   (makeRequest_retry_profile (fun _ => false) 3).2 (fun _ => rfl)⟩

/-- Connection-context state relevant to `connect`
(`ConnectionContext`, part_004): the Connecting and Connected flags, the
attempt counter, and a count of session-creation requests issued so far
(a session-creation request is issued by `apiService.connect()` when no
session id is held, the situation of a first connect). -/
structure ConnState where
  isConnecting : Bool
  isConnected : Bool
  attempts : Nat
  sessionCreations : Nat
  deriving DecidableEq, Repr

/-- Embeds the synchronous prefix of the context's `connect`
(part_004 lines 224-246): the guard
`if (isConnecting || isConnected || !apiService) return isConnected`
short-circuits with the current connected flag (`some result`); otherwise
the call marks Connecting, increments the attempt counter and issues the
session-establishment request via `apiService.connect()`, the call now
pending (`none`). -/
def connectBegin (s : ConnState) : ConnState × Option Bool :=
  if s.isConnecting || s.isConnected then (s, some s.isConnected)
  else
    ({ s with
        isConnecting := true
        attempts := s.attempts + 1
        sessionCreations := s.sessionCreations + 1 }, none)

/-- Embeds the resumption of a pending `connect` once the awaited
`apiService.connect()` resolves with `success` (part_004 lines 248-281):
the connected flag follows the result, Connecting is cleared, and the
call returns `success`. -/
def connectFinish (s : ConnState) (success : Bool) : ConnState × Bool :=
  ({ s with isConnecting := false, isConnected := success }, success)

/-- Claim C4 counterexample: from the initial state, a first `connect()`
is begun and, while it is pending, a second `connect()` is called.  The
second call returns `false` (the current connected flag) at once, while
the first call resolves to `true` when session establishment succeeds:
the two overlapping calls do not yield the same result. -/
theorem connect_overlapping_results_differ :
    (connectBegin (connectBegin ⟨false, false, 0, 0⟩).1).2 = some false ∧
    (connectFinish (connectBegin ⟨false, false, 0, 0⟩).1 true).2 = true ∧
    (false : Bool) ≠ true := by
  refine ⟨rfl, rfl, by decide⟩

/-- Claim C4 (amended): `connect()` while already Connecting or Connected
is a no-op that returns the connected flag of that moment and issues no
session-creation request, so two `connect()` calls in immediate
succession issue exactly one session-creation request; the second call
returns `false` while the first is still pending, which matches the first
call's result only when the first fails. -/
theorem connect_idempotent_guard (s : ConnState) (b : Bool)
    (h0 : s.isConnecting = false) (h1 : s.isConnected = false) :
    ((connectBegin s).2 = none ∧
      (connectBegin s).1.sessionCreations = s.sessionCreations + 1) ∧
    connectBegin (connectBegin s).1 = ((connectBegin s).1, some false) ∧
    (connectFinish (connectBegin s).1 b).2 = b := by
  refine ⟨⟨?_, ?_⟩, ?_, rfl⟩ <;> simp [connectBegin, h0, h1]

/-- Witness for C4's amended theorem at the initial state. -/
theorem connect_idempotent_guard_witness :
    ((connectBegin ⟨false, false, 0, 0⟩).2 = none ∧
      (connectBegin ⟨false, false, 0, 0⟩).1.sessionCreations = 0 + 1) ∧
    connectBegin (connectBegin ⟨false, false, 0, 0⟩).1
      = ((connectBegin ⟨false, false, 0, 0⟩).1, some false) ∧
    (connectFinish (connectBegin ⟨false, false, 0, 0⟩).1 true).2 = true :=
  connect_idempotent_guard ⟨false, false, 0, 0⟩ true rfl rfl

/-- Body of a `/mobile/session` response as far as `validateSession`
inspects it: the `success` flag. -/
structure SessionResp where
  success : Bool
  deriving DecidableEq, Repr

/-- Embeds `validateSession` (`ApiService.ts` lines 212-222): GET
`/mobile/session`; if the response's success flag is false an error is
raised; any error raised in the try block (network error included) is
caught and `createSession()` is awaited instead, whose outcome becomes
the outcome of `validateSession`.  `check` is the outcome of the GET
(error codes are abstract `Nat`s) and `create` the outcome
`createSession()` would have. -/
def validateSession (check : Except Nat SessionResp) (create : Except Nat Unit) :
    Except Nat Unit :=
  match check with
  | .ok r => if r.success then .ok () else create
  | .error _ => create

/-- Claim C5: whenever the existence check fails — a network error, or a
response whose success flag is false — `validateSession` falls through to
`createSession`, its outcome becoming the result; the validation failure
itself is never propagated to the caller. -/
theorem validateSession_self_healing (check : Except Nat SessionResp)
    (create : Except Nat Unit)
    (h : ∀ r, check = .ok r → r.success = false) :
    validateSession check create = create := by
  cases check with
  | error e => rfl
  | ok r =>
      have hr := h r rfl
      simp [validateSession, hr]

/-- Witness for C5 at a network error and at an invalid-session
response. -/
theorem validateSession_self_healing_witness :
    validateSession (.error 7) (.ok ()) = .ok () ∧
    validateSession (.ok ⟨false⟩) (.error 3) = .error 3 :=
  ⟨validateSession_self_healing (.error 7) (.ok ()) (fun r h => by cases h),
   validateSession_self_healing (.ok ⟨false⟩) (.error 3)
     (fun r h => by cases h; rfl)⟩

/-- Session payload as it appears on the wire in the GET
`/mobile/session` response: `lastActivity` is a string. -/
structure RawSession where
  id : String
  deviceName : String
  platform : String
  lastActivity : String
  deriving DecidableEq, Repr

/-- Session metadata returned by `getSession`: `lastActivity` has been
coerced to a temporal value (`new Date(...)`, modelled as the `Nat`
produced by the supplied parse function). -/
structure SessionInfo where
  id : String
  deviceName : String
  platform : String
  lastActivity : Nat
  deriving DecidableEq, Repr

/-- Body of the GET `/mobile/session` response as `getSession` reads
it. -/
structure GetSessionResp where
  success : Bool
  session : RawSession
  deriving DecidableEq, Repr

/-- Embeds `getSession` (`ApiService.ts` lines 224-238): on a response
with `success` true it returns the session with `lastActivity` coerced by
`new Date(...)` (`parseDate`); on `success` false it returns null; any
thrown error (network failure) is caught and null is returned. -/
def getSession (parseDate : String → Nat) (resp : Except Nat GetSessionResp) :
    Option SessionInfo :=
  match resp with
  | .error _ => none
  | .ok r =>
      if r.success then
        some { id := r.session.id
               deviceName := r.session.deviceName
               platform := r.session.platform
               lastActivity := parseDate r.session.lastActivity }
      else none

/-- Claim C6: `getSession` never throws — it is a total function of the
response — and it returns the session metadata with `lastActivity`
coerced from the wire string exactly when the response has `success`
true, returning null both on a non-success response and on any network
error. -/
theorem getSession_total_behaviour (parseDate : String → Nat)
    (resp : Except Nat GetSessionResp) :
    (∀ r, resp = .ok r → r.success = true →
      getSession parseDate resp
        = some { id := r.session.id
                 deviceName := r.session.deviceName
                 platform := r.session.platform
                 lastActivity := parseDate r.session.lastActivity }) ∧
    (∀ r, resp = .ok r → r.success = false →
      getSession parseDate resp = none) ∧
    (∀ e, resp = .error e → getSession parseDate resp = none) := by
  refine ⟨?_, ?_, ?_⟩
  · rintro r rfl hs
    simp [getSession, hs]
  · rintro r rfl hs
    simp [getSession, hs]
  · rintro e rfl
    rfl

/-- Witness for C6 at a success response, a non-success response and a
network error. -/
theorem getSession_total_behaviour_witness :
    getSession String.length (.ok ⟨true, ⟨"s1", "dev", "ios", "abc"⟩⟩)
      = some { id := "s1"
               deviceName := "dev"
               platform := "ios"
               lastActivity := String.length "abc" } ∧
    getSession String.length (.ok ⟨false, ⟨"s1", "dev", "ios", "abc"⟩⟩) = none ∧
    getSession String.length (.error 5) = none :=
  ⟨(getSession_total_behaviour String.length
      (.ok ⟨true, ⟨"s1", "dev", "ios", "abc"⟩⟩)).1 _ rfl rfl,
   (getSession_total_behaviour String.length
      (.ok ⟨false, ⟨"s1", "dev", "ios", "abc"⟩⟩)).2.1 _ rfl rfl,
   (getSession_total_behaviour String.length (.error 5)).2.2 5 rfl⟩

/-- In-memory `ApiService` state touched by `disconnect`: the connected
flag, the session id, whether the polling interval timer is armed, and
the registered connection listeners (identified by an id, in registration
order). -/
structure SvcState where
  isConnected : Bool
  sessionId : Option String
  pollingActive : Bool
  connectionListeners : List Nat
  deriving DecidableEq, Repr

/-- An externally visible action performed by a service method: removal of
a key from the persistent store, an outbound HTTP request, or the
invocation of a connection listener with a connected flag. -/
inductive Effect where
  | storageRemove (key : String)
  | httpRequest (path : String)
  | notify (listener : Nat) (connected : Bool)
  deriving DecidableEq, Repr

/-- Whether an effect is an outbound HTTP request. -/
def Effect.isHttpRequest : Effect → Bool
  | .httpRequest _ => true
  | _ => false

/-- Embeds `disconnect` (`ApiService.ts` lines 176-182): clear the
connected flag, null the session id, stop the polling timer, remove the
persisted `api_session_id` key, and notify every connection listener with
`false` — no HTTP request is issued. -/
def disconnect (s : SvcState) : SvcState × List Effect :=
  ({ s with isConnected := false, sessionId := none, pollingActive := false },
   Effect.storageRemove "api_session_id"
     :: s.connectionListeners.map (fun l => Effect.notify l false))

/-- Claim C7: after `disconnect` from any state, the connected flag is
false, the session id is null, the polling loop is stopped, no HTTP
request (hence no server-side teardown) is issued, and each registered
connection listener is invoked with `false` exactly as often as it is
registered — once, for a listener registered once. -/
theorem disconnect_clears_state (s : SvcState) :
    (disconnect s).1.isConnected = false ∧
    (disconnect s).1.sessionId = none ∧
    (disconnect s).1.pollingActive = false ∧
    (disconnect s).2.countP (fun e => e.isHttpRequest) = 0 ∧
    ∀ l, (disconnect s).2.count (Effect.notify l false)
      = s.connectionListeners.count l := by
  refine ⟨rfl, rfl, rfl, ?_, ?_⟩
  · simp [disconnect, Effect.isHttpRequest, List.countP_eq_zero]
  · intro l
    have hinj : Function.Injective (fun l : Nat => Effect.notify l false) := by
      intro a b hab
      cases hab
      rfl
    simp [disconnect, List.count_cons]
    rw [List.count_map_of_injective _ _ hinj]

/-- Per-tick state read and preserved by the polling loop: the connected
flag and whether the interval timer is armed. -/
structure PollState where
  isConnected : Bool
  pollingActive : Bool
  deriving DecidableEq, Repr

/-- What one polling tick observes from the network: the result of
`getSession()` (which never throws: null on failure) and the outcome of
`getCurrentProject()` (which can reject).  Session and project values are
abstracted to ids. -/
structure TickInput where
  sessionResult : Option Nat
  projectResult : Except Unit (Option Nat)
  deriving Repr

/-- Embeds the body of the `setInterval` callback of `startPolling`
(`ApiService.ts` lines 492-510): a tick returns at once while not
connected; otherwise it notifies `session_update` when `getSession()`
returned a session, then fetches the current project and notifies
`project_update` when one is open; an error thrown anywhere in the try
block is caught and logged.  The tick never mutates the connection flag
or the timer; it returns the state unchanged together with the
notifications it emitted. -/
def pollTick (s : PollState) (input : TickInput) :
    PollState × List (String × Nat) :=
  if s.isConnected = false then (s, [])
  else
    let sessionNotes :=
      match input.sessionResult with
      | some v => [("session_update", v)]
      | none => []
    match input.projectResult with
    | .error _ => (s, sessionNotes)
    | .ok none => (s, sessionNotes)
    | .ok (some p) => (s, sessionNotes ++ [("project_update", p)])

/-- A run of successive timer ticks with the given per-tick inputs,
threading the state and collecting each tick's notifications. -/
def pollRun (s : PollState) : List TickInput → PollState × List (List (String × Nat))
  | [] => (s, [])
  | t :: rest =>
      let first := pollTick s t
      let later := pollRun first.1 rest
      (later.1, first.2 :: later.2)

/-- Claim C8: a polling tick — in particular a failing one, whose error
the catch block swallows — never changes the connection flag and never
disarms the timer, and over any sequence of scheduled ticks every tick
fires (one notification batch per scheduled tick) with the state intact
throughout. -/
theorem polling_tick_isolated (s : PollState) (input : TickInput)
    (ticks : List TickInput) :
    (pollTick s input).1 = s ∧
    (pollRun s ticks).1 = s ∧
    (pollRun s ticks).2.length = ticks.length := by
  have hTick : ∀ (t : TickInput) (s' : PollState), (pollTick s' t).1 = s' := by
    intro t s'
    unfold pollTick
    split
    · rfl
    · cases t.projectResult with
      | error e => rfl
      | ok p => cases p <;> rfl
  have hRun : ∀ (ts : List TickInput) (s' : PollState),
      (pollRun s' ts).1 = s' ∧ (pollRun s' ts).2.length = ts.length := by
    intro ts
    induction ts with
    | nil => intro s'; exact ⟨rfl, rfl⟩
    | cons t rest ih =>
        intro s'
        have h1 := hTick t s'
        have h2 := ih (pollTick s' t).1
        rw [h1] at h2
        simp [pollRun, h1, h2.1, h2.2]
  exact ⟨hTick input s, (hRun ticks s).1, (hRun ticks s).2⟩

/-- The `pollingCallbacks` map of `ApiService`, a JS `Map` from event key
to the single registered callback, modelled by its lookup function;
callbacks are identified by an id. -/
def CallbackMap : Type := String → Option Nat

/-- Embeds `onPollingUpdate` (`ApiService.ts` lines 520-525):
`this.pollingCallbacks.set(event, callback)` — the callback stored under
`event` is replaced by the new one, all other keys untouched. -/
def onPollingUpdate (m : CallbackMap) (event : String) (cb : Nat) : CallbackMap :=
  fun k => if k = event then some cb else m k

/-- Embeds `notifyPollingCallbacks` (`ApiService.ts` lines 527-532): the
callback stored under `event`, if any, is invoked with the data; the
returned list records the invocations (callback id, data). -/
def notifyPollingCallbacks (m : CallbackMap) (event : String) (d : Nat) :
    List (Nat × Nat) :=
  match m event with
  | some cb => [(cb, d)]
  | none => []

/-- Claim C9: registering a second callback under an event key replaces
the first — a later notification for that key invokes only the most
recent callback — other keys are unaffected, and a notification never
invokes more than one callback. -/
theorem polling_callback_last_wins (m : CallbackMap) (e k : String)
    (cb1 cb2 d : Nat) :
    onPollingUpdate (onPollingUpdate m e cb1) e cb2 e = some cb2 ∧
    notifyPollingCallbacks (onPollingUpdate (onPollingUpdate m e cb1) e cb2) e d
      = [(cb2, d)] ∧
    (k ≠ e → onPollingUpdate (onPollingUpdate m e cb1) e cb2 k = m k) ∧
    (notifyPollingCallbacks m e d).length ≤ 1 := by
  refine ⟨?_, ?_, ?_, ?_⟩
  · simp [onPollingUpdate]
  · simp [notifyPollingCallbacks, onPollingUpdate]
  · intro hk
    simp [onPollingUpdate, hk]
  · unfold notifyPollingCallbacks
    cases m e <;> simp

/-- Witness for C9 at an empty map and concrete distinct keys. -/
theorem polling_callback_last_wins_witness :
    onPollingUpdate (onPollingUpdate (fun _ => none) "session_update" 1)
        "session_update" 2 "project_update"
      = (fun _ => (none : Option Nat)) "project_update" :=
  (polling_callback_last_wins (fun _ => none) "session_update" "project_update"
      1 2 9).2.2.1 (by decide)

/-- The persistent key-value store (AsyncStorage), modelled by its lookup
function. -/
def Storage : Type := String → Option String

/-- Removal of a key from the persistent store
(`AsyncStorage.removeItem`). -/
def storageRemoveItem (st : Storage) (key : String) : Storage :=
  fun k => if k = key then none else st k

/-- The persistent-store effect of `disconnect` (`ApiService.ts` line
180): `AsyncStorage.removeItem('api_session_id')` — the only storage
write `disconnect` performs. -/
def disconnectStorage (st : Storage) : Storage :=
  storageRemoveItem st "api_session_id"

/-- What `loadStoredSession` leaves behind: the in-memory session id and
device id it sets, and the store (which it writes only when no device id
was persisted). -/
structure LoadResult where
  sessionId : Option String
  deviceId : String
  store : Storage

/-- Embeds `loadStoredSession` (`ApiService.ts` lines 100-119), run on
construction, i.e. at process restart: reads `api_session_id` and
`device_id`; a stored device id is adopted, otherwise the freshly
generated one (`generated`) is persisted; a stored session id, if
present, is adopted (and then validated). -/
def loadStoredSession (st : Storage) (generated : String) : LoadResult :=
  let storedSession := st "api_session_id"
  match st "device_id" with
  | some d => { sessionId := storedSession, deviceId := d, store := st }
  | none =>
      { sessionId := storedSession
        deviceId := generated
        store := fun k => if k = "device_id" then some generated else st k }

/-- Claim C10: `disconnect` removes the persisted `api_session_id` key
while leaving `device_id` (and every other key) unchanged, so a restart
after a disconnect restores no previous session token yet adopts the same
persisted device identity. -/
theorem disconnect_storage_frame (st : Storage) (g : String) :
    disconnectStorage st "api_session_id" = none ∧
    disconnectStorage st "device_id" = st "device_id" ∧
    (loadStoredSession (disconnectStorage st) g).sessionId = none ∧
    (loadStoredSession (disconnectStorage st) g).deviceId
      = (st "device_id").getD g := by
  refine ⟨rfl, ?_, ?_, ?_⟩
  · simp [disconnectStorage, storageRemoveItem]
  · unfold loadStoredSession
    cases h : disconnectStorage st "device_id" <;>
      simp [disconnectStorage, storageRemoveItem]
  · unfold loadStoredSession
    have hd : disconnectStorage st "device_id" = st "device_id" := by
      simp [disconnectStorage, storageRemoveItem]
    rw [hd]
    cases st "device_id" <;> simp

end StratoApi
